import Mathlib

/-!
Verification of the minimact virtual-DOM reconciler and predictive patch
engine.  The Rust sources (src/path.rs, src/vdom.rs, src/validation.rs,
src/reconciler.rs, src/predictor.rs) are shallowly embedded: machine
integers become `Nat` with explicit `% 2^32` where u32 wrap-around matters,
`f32`/`f64` values are modelled by exact rationals, Rust `HashMap`s become
association lists collected in iteration order, `Instant` timestamps become
absolute `Nat` clocks, and fallible functions return `Except`/`Option`.
-/

namespace Minimact

/-! ## Paths (src/path.rs) -/

/-- `pub struct HexPath(pub String)` — hex-based DOM path such as
`"10000000.20000000"`. -/
structure HexPath where
  str : String
deriving DecidableEq, Repr

/-- `pub const HEX_GAP: u32 = 0x10000000` — gap between consecutive
child slots. -/
def HEX_GAP : Nat := 0x10000000

/-- u32 modulus. -/
def U32_MOD : Nat := 2 ^ 32

/-- `HexPath::root()` — the empty root path. -/
def HexPath.root : HexPath := ⟨""⟩

/-- `HexPath::child(index)` — append segment `(index+1)*HEX_GAP`
(formatted as 8 lower-case hex digits) to the path. -/
def HexPath.child (p : HexPath) (index : Nat) : HexPath :=
  let hexValue := (index + 1) * HEX_GAP % U32_MOD
  let seg := String.mk ((Nat.toDigits 16 hexValue).map Char.toLower)
  let seg := String.mk (List.replicate (8 - seg.length) '0') ++ seg
  if p.str = "" then ⟨seg⟩ else ⟨p.str ++ "." ++ seg⟩

/-- Numeric value of a hex digit, as accepted by Rust
`u32::from_str_radix(_, 16)` (both letter cases). -/
def hexDigitVal (c : Char) : Option Nat :=
  if '0' ≤ c ∧ c ≤ '9' then some (c.toNat - '0'.toNat)
  else if 'a' ≤ c ∧ c ≤ 'f' then some (c.toNat - 'a'.toNat + 10)
  else if 'A' ≤ c ∧ c ≤ 'F' then some (c.toNat - 'A'.toNat + 10)
  else none

/-- Accumulate hex digits left to right; `none` on a non-digit. -/
def hexDigitsVal : List Char → Nat → Option Nat
  | [], acc => some acc
  | c :: cs, acc =>
    match hexDigitVal c with
    | some d => hexDigitsVal cs (acc * 16 + d)
    | none => none

/-- `u32::from_str_radix(seg, 16)`: optional leading sign, at least one
digit, result must fit in a `u32`; a `-` sign is only accepted when the
value is zero. -/
def from_str_radix16 (seg : String) : Option Nat :=
  let chars := seg.data
  let signed : Bool × List Char :=
    match chars with
    | '+' :: rest => (false, rest)
    | '-' :: rest => (true, rest)
    | rest => (false, rest)
  match signed with
  | (neg, digits) =>
    if digits.isEmpty then none
    else match hexDigitsVal digits 0 with
      | some v =>
        if v < U32_MOD then (if neg ∧ v ≠ 0 then none else some v) else none
      | none => none

/-- Rust `str::split('.')` on the underlying characters: maximal runs
between dots, so adjacent/leading/trailing dots yield empty segments. -/
def splitDot : List Char → List (List Char)
  | [] => [[]]
  | c :: rest =>
    if c = '.' then [] :: splitDot rest
    else
      match splitDot rest with
      | seg :: segs => (c :: seg) :: segs
      | [] => [[c]]

/-- `HexPath::segments()` — split on `'.'` and parse each segment as a
hex u32; the root path has no segments. -/
def HexPath.segments (p : HexPath) : Except String (List Nat) :=
  if p.str = "" then .ok []
  else
    ((splitDot p.str.data).map String.mk).foldr
      (fun seg acc =>
        match from_str_radix16 seg, acc with
        | some v, .ok vs => .ok (v :: vs)
        | none, _ => .error "invalid hex segment"
        | _, .error e => .error e)
      (.ok [])

/-- `HexPath::to_index_path()` — convert to legacy index path.  Each
segment must be a multiple of `HEX_GAP`; the conversion computes
`seg / HEX_GAP - 1` in u32 arithmetic, which wraps modulo `2^32` (release
builds) when the segment is zero. -/
def HexPath.to_index_path (p : HexPath) : Except String (List Nat) :=
  if p.str = "" then .ok []
  else
    match p.segments with
    | .error _ => .error "Invalid hex path"
    | .ok segs =>
      segs.foldr
        (fun seg acc =>
          if seg % HEX_GAP ≠ 0 then .error "segment not aligned to HEX_GAP"
          else match acc with
            | .ok is => .ok ((seg / HEX_GAP + (U32_MOD - 1)) % U32_MOD :: is)
            | .error e => .error e)
        (.ok [])

/-! ## Virtual-DOM node model (src/vdom.rs)

`props` maps are association lists in Rust-iteration order; `children`
keep the `Option` slots of `Vec<Option<VNode>>`. -/

inductive VNode where
  | element (tag : String) (props : List (String × String))
      (children : List (Option VNode)) (key : Option String) (path : HexPath)
  | text (content : String) (path : HexPath)
  | null (path : HexPath)

/-- Modelled from the spec: every variant carries a `path` identifier
(the `VNode::path()` accessor used throughout the reconciler). -/
def VNode.path : VNode → HexPath
  | .element _ _ _ _ p => p
  | .text _ p => p
  | .null p => p

/-- Modelled from the spec: only elements carry a `key`
(`VNode::key()`). -/
def VNode.key : VNode → Option String
  | .element _ _ _ k _ => k
  | _ => none

/-- Modelled from the spec: `VNode::is_null()` recognises the `Null`
placeholder variant. -/
def VNode.is_null : VNode → Bool
  | .null _ => true
  | _ => false

/-- First-match association-list lookup (Rust `HashMap` access). -/
def alookup {κ α : Type} [DecidableEq κ] (k : κ) : List (κ × α) → Option α
  | [] => none
  | (k', v) :: rest => if k' = k then some v else alookup k rest

/-- Rust `HashMap<String,String>` equality: the two prop maps agree on
every key (order of the association list is irrelevant, as for a hash
map). -/
def propsEq (p₁ p₂ : List (String × String)) : Bool :=
  (p₁ ++ p₂).all fun kv => alookup kv.1 p₁ == alookup kv.1 p₂

mutual
/-- Derived `PartialEq` for `VNode`: structural equality with hash-map
semantics for `props`. -/
def vnodeEq : VNode → VNode → Bool
  | .element t₁ p₁ c₁ k₁ h₁, .element t₂ p₂ c₂ k₂ h₂ =>
    t₁ == t₂ && propsEq p₁ p₂ && childrenEq c₁ c₂ && k₁ == k₂ && h₁.str == h₂.str
  | .text s₁ h₁, .text s₂ h₂ => s₁ == s₂ && h₁.str == h₂.str
  | .null h₁, .null h₂ => h₁.str == h₂.str
  | _, _ => false

def childEq : Option VNode → Option VNode → Bool
  | none, none => true
  | some a, some b => vnodeEq a b
  | _, _ => false

def childrenEq : List (Option VNode) → List (Option VNode) → Bool
  | [], [] => true
  | a :: as', b :: bs => childEq a b && childrenEq as' bs
  | _, _ => false
end

theorem propsEq_refl (p : List (String × String)) : propsEq p p = true := by
  simp [propsEq, List.all_eq_true]

mutual
theorem vnodeEq_refl (v : VNode) : vnodeEq v v = true := by
  cases v with
  | element t p c k h =>
    simp [vnodeEq, propsEq_refl, childrenEq_refl c]
  | text s h => simp [vnodeEq]
  | null h => simp [vnodeEq]

theorem childEq_refl (c : Option VNode) : childEq c c = true := by
  cases c with
  | none => rfl
  | some v => simpa [childEq] using vnodeEq_refl v

theorem childrenEq_refl (l : List (Option VNode)) : childrenEq l l = true := by
  cases l with
  | nil => rfl
  | cons c rest => simp [childrenEq, childEq_refl c, childrenEq_refl rest]
end

/-! ## Errors (src/error.rs) -/

inductive MinimactError where
  | InvalidVNode (msg : String)
  | InvalidPatchPath (path : List Nat)
  | PatchTypeMismatch (expected found : String)
  | PredictorFull
  | InvalidHandle (h : Nat)
  | TreeTooDeep (depth max : Nat)
  | TreeTooLarge (nodes max : Nat)
  | MemoryLimitExceeded (current max : Nat)
  | JsonTooLarge (size max : Nat)
  | Serialization (msg : String)
  | InvalidUtf8 (msg : String)
  | NullPointer (param : String)
  | TooManyChildren (count max : Nat)
  | PropertyTooLong (name : String) (length max : Nat)
  | TextTooLong (length max : Nat)
  | Persistence (msg : String)
  | KeyNotFound (key : String)
deriving DecidableEq, Repr

/-! ## Validation (src/validation.rs) -/

structure ValidationConfig where
  max_tree_depth : Nat
  max_node_count : Nat
  max_children_per_node : Nat
  max_prop_key_length : Nat
  max_prop_value_length : Nat
  max_text_length : Nat
  max_json_size : Nat
deriving DecidableEq, Repr

/-- `ValidationConfig::default()`. -/
def ValidationConfig.default : ValidationConfig where
  max_tree_depth := 100
  max_node_count := 10000
  max_children_per_node := 1000
  max_prop_key_length := 256
  max_prop_value_length := 4096
  max_text_length := 1024 * 1024
  max_json_size := 1024 * 1024

/-- String byte length (Rust `str::len`). -/
def strLen (s : String) : Nat := s.utf8ByteSize

mutual
/-- `VNode::validate_depth`. -/
def validate_depth (v : VNode) (current_depth : Nat) (config : ValidationConfig) :
    Except MinimactError Unit :=
  if current_depth > config.max_tree_depth then
    .error (.TreeTooDeep current_depth config.max_tree_depth)
  else
    match v with
    | .element _ _ children _ _ => validate_depth_children children current_depth config
    | .text _ _ => .ok ()
    | .null _ => .ok ()

def validate_depth_children (l : List (Option VNode)) (current_depth : Nat)
    (config : ValidationConfig) : Except MinimactError Unit :=
  match l with
  | [] => .ok ()
  | none :: rest => validate_depth_children rest current_depth config
  | some child :: rest => do
    validate_depth child (current_depth + 1) config
    validate_depth_children rest current_depth config
end

mutual
/-- `VNode::count_nodes` — nulls count as one placeholder node. -/
def count_nodes : VNode → Nat
  | .text _ _ => 1
  | .element _ _ children _ _ => 1 + count_nodes_children children
  | .null _ => 1

def count_nodes_children : List (Option VNode) → Nat
  | [] => 0
  | none :: rest => count_nodes_children rest
  | some c :: rest => count_nodes c + count_nodes_children rest
end

/-- `VNode::validate_node_count`. -/
def validate_node_count (v : VNode) (config : ValidationConfig) :
    Except MinimactError Unit :=
  let count := count_nodes v
  if count > config.max_node_count then
    .error (.TreeTooLarge count config.max_node_count)
  else .ok ()

/-- Property-size checks of `validate_content_sizes`, in map-iteration
order. -/
def validate_props_sizes (props : List (String × String)) (config : ValidationConfig) :
    Except MinimactError Unit :=
  match props with
  | [] => .ok ()
  | (key, value) :: rest =>
    if strLen key > config.max_prop_key_length then
      .error (.PropertyTooLong key (strLen key) config.max_prop_key_length)
    else if strLen value > config.max_prop_value_length then
      .error (.PropertyTooLong (key ++ " (value)") (strLen value) config.max_prop_value_length)
    else validate_props_sizes rest config

mutual
/-- `VNode::validate_content_sizes`. -/
def validate_content_sizes (v : VNode) (config : ValidationConfig) :
    Except MinimactError Unit :=
  match v with
  | .text content _ =>
    if strLen content > config.max_text_length then
      .error (.TextTooLong (strLen content) config.max_text_length)
    else .ok ()
  | .element _ props children _ _ =>
    if children.length > config.max_children_per_node then
      .error (.TooManyChildren children.length config.max_children_per_node)
    else do
      validate_props_sizes props config
      validate_content_children children config
  | .null _ => .ok ()

def validate_content_children (l : List (Option VNode)) (config : ValidationConfig) :
    Except MinimactError Unit :=
  match l with
  | [] => .ok ()
  | none :: rest => validate_content_children rest config
  | some child :: rest => do
    validate_content_sizes child config
    validate_content_children rest config
end

/-- `VNode::validate`. -/
def VNode.validate (v : VNode) (config : ValidationConfig) :
    Except MinimactError Unit := do
  validate_depth v 0 config
  validate_node_count v config
  validate_content_sizes v config

/-! ## Patches (src/vdom.rs)

The embedding covers the patch variants the reconciler produces; the
template variants are populated only by the template-extraction layer,
which is outside the scope of this development. -/

inductive Patch where
  | create (path : HexPath) (node : VNode)
  | remove (path : HexPath)
  | replace (path : HexPath) (node : VNode)
  | updateText (path : HexPath) (content : String)
  | updateProps (path : HexPath) (props : List (String × String))
  | reorderChildren (path : HexPath) (order : List String)

/-! ## Reconciler (src/reconciler.rs) -/

/-- Insert into an association list, overwriting an existing binding
(Rust `HashMap` collect semantics: a later pair for the same key wins). -/
def insertReplace {κ α : Type} [DecidableEq κ] (k : κ) (v : α) :
    List (κ × α) → List (κ × α)
  | [] => [(k, v)]
  | (k', v') :: rest =>
    if k' = k then (k, v) :: rest else (k', v') :: insertReplace k v rest

/-- Keyed-children map `key -> (index, node)` built from
`children.iter().enumerate().filter_map(...)`, skipping `None` slots and
unkeyed nodes. -/
def collectKeyed (children : List (Option VNode)) : List (String × (Nat × VNode)) :=
  (children.foldl
    (fun (st : Nat × List (String × (Nat × VNode))) opt =>
      match opt with
      | some node =>
        match node.key with
        | some k => (st.1 + 1, insertReplace k (st.1, node) st.2)
        | none => (st.1 + 1, st.2)
      | none => (st.1 + 1, st.2))
    (0, [])).2

/-- Path-keyed child map `path -> node` from
`children.iter().filter_map(...)` (skipping `None` slots). -/
def collectByPath (children : List (Option VNode)) : List (HexPath × VNode) :=
  children.foldl
    (fun acc opt =>
      match opt with
      | some node => insertReplace node.path node acc
      | none => acc)
    []

theorem sizeOf_alookup {κ α : Type} [DecidableEq κ] [SizeOf κ] [SizeOf α] (k : κ)
    (l : List (κ × α)) (v : α) (h : alookup k l = some v) :
    sizeOf v < sizeOf l := by
  induction l with
  | nil => simp [alookup] at h
  | cons kv rest ih =>
    obtain ⟨k', v'⟩ := kv
    by_cases hk : k' = k
    · simp [alookup, hk] at h
      subst h
      simp
      omega
    · simp [alookup, hk] at h
      have := ih h
      simp
      omega

theorem sizeOf_insertReplace_le {κ α : Type} [DecidableEq κ] [SizeOf κ] [SizeOf α]
    (k : κ) (v : α) (l : List (κ × α)) (p : κ × α)
    (hp : p ∈ insertReplace k v l) :
    p = (k, v) ∨ p ∈ l := by
  induction l with
  | nil => simpa [insertReplace] using hp
  | cons kv rest ih =>
    by_cases hk : kv.1 = k
    · simp [insertReplace, hk] at hp
      rcases hp with h | h
      · left; simpa using h
      · right; simp [h]
    · simp [insertReplace, hk] at hp
      rcases hp with h | h
      · right; simp [h]
      · rcases ih h with h' | h'
        · left; exact h'
        · right; simp [h']

/-- Every entry of the by-path map comes from a non-null child slot. -/
theorem collectByPath_mem (children : List (Option VNode)) :
    ∀ pv ∈ collectByPath children, some pv.2 ∈ children := by
  suffices h : ∀ (acc : List (HexPath × VNode)) pv,
      pv ∈ children.foldl
        (fun acc opt =>
          match opt with
          | some node => insertReplace node.path node acc
          | none => acc) acc →
      pv ∈ acc ∨ some pv.2 ∈ children by
    intro pv hpv
    rcases h [] pv hpv with h' | h'
    · simp at h'
    · exact h'
  induction children with
  | nil => intro acc pv hpv; exact Or.inl hpv
  | cons c rest ih =>
    intro acc pv hpv
    simp only [List.foldl_cons] at hpv
    rcases ih _ pv hpv with h' | h'
    · cases c with
      | none => exact Or.inl h'
      | some node =>
        rcases sizeOf_insertReplace_le node.path node acc pv h' with h'' | h''
        · right
          simp [h'']
        · exact Or.inl h''
    · right
      simp [h']

/-- Every node stored in the by-path map is structurally smaller than the
children list it was collected from. -/
theorem collectByPath_sizeOf (children : List (Option VNode)) :
    ∀ pv ∈ collectByPath children, sizeOf pv.2 < sizeOf children := by
  intro pv hpv
  have hmem := collectByPath_mem children pv hpv
  have := List.sizeOf_lt_of_mem hmem
  simp at this
  omega

/-- Index of the last `'.'` in an ASCII path string (Rust `str::rfind`). -/
def rfindDot (s : String) : Option Nat :=
  match s.data.reverse.findIdx? (· = '.') with
  | some r => some (s.data.length - 1 - r)
  | none => none

/-- Rust byte-slice `&s[..n]` for ASCII strings. -/
def takeStr (s : String) (n : Nat) : String := String.mk (s.data.take n)

/-- `Remove` patches for old keyed children whose key is absent from the
new keyed map, in old-map iteration order. -/
def keyed_removes (old_keyed new_keyed : List (String × (Nat × VNode))) : List Patch :=
  old_keyed.foldr
    (fun kv acc =>
      if (alookup kv.1 new_keyed).isNone then .remove kv.2.2.path :: acc else acc)
    []

/-- Final `ReorderChildren` emission of `reconcile_keyed_children`: only
when some non-null new child carries a key, the first child slot is
non-null and its path contains a dot; the parent path is the first
child's path with its last segment stripped. -/
def keyed_reorder (newChildren : List (Option VNode)) : List Patch :=
  let new_key_order := newChildren.filterMap (fun opt => opt.bind VNode.key)
  if new_key_order.isEmpty then []
  else
    match newChildren.head? with
    | some (some first_child) =>
      match rfindDot first_child.path.str with
      | some last_dot =>
        [.reorderChildren ⟨takeStr first_child.path.str last_dot⟩ new_key_order]
      | none => []
    | _ => []

/-- `Remove` patches of path-based reconciliation: old paths absent from
the new map whose node is not `Null`. -/
def by_path_removes (old_by_path new_by_path : List (HexPath × VNode)) : List Patch :=
  old_by_path.foldr
    (fun pv acc =>
      if (alookup pv.1 new_by_path).isNone ∧ ¬pv.2.is_null then
        .remove pv.1 :: acc
      else acc)
    []

mutual
/-- `reconcile_node` — the patch-emitting core; the Rust function returns
`Result` but has no failing path, so the model returns the patch list. -/
def reconcile_node (old new : VNode) : List Patch :=
  let path := new.path
  if old.path ≠ path then [.replace path new]
  else if vnodeEq old new then []
  else
    match old, new with
    | .text oldContent _, .text newContent _ =>
      if oldContent ≠ newContent then [.updateText path newContent] else []
    | .null _, .null _ => []
    | .element oldTag oldProps oldChildren _ _, .element newTag newProps newChildren _ _ =>
      if oldTag = newTag then
        (if ¬ propsEq oldProps newProps then [.updateProps path newProps] else [])
          ++ reconcile_children oldChildren newChildren
      else [.replace path new]
    | _, _ => [.replace path new]
termination_by (sizeOf new, 0, 0)

/-- `reconcile_children` — dispatch between keyed and path-based child
reconciliation. -/
def reconcile_children (oldChildren newChildren : List (Option VNode)) : List Patch :=
  let old_keyed := collectKeyed oldChildren
  let new_keyed := collectKeyed newChildren
  if ¬ old_keyed.isEmpty ∨ ¬ new_keyed.isEmpty then
    reconcile_keyed_children oldChildren newChildren old_keyed new_keyed
  else
    reconcile_children_by_path oldChildren newChildren
termination_by (sizeOf newChildren, 3, 0)

/-- `reconcile_children_by_path`. -/
def reconcile_children_by_path (oldChildren newChildren : List (Option VNode)) :
    List Patch :=
  let old_by_path := collectByPath oldChildren
  let new_by_path := collectByPath newChildren
  reconcile_by_path_loop newChildren old_by_path new_by_path
      (collectByPath_sizeOf newChildren)
    ++ by_path_removes old_by_path new_by_path
termination_by (sizeOf newChildren, 2, 0)

/-- Create/recurse loop of `reconcile_children_by_path`, iterating the
new-side path map. -/
def reconcile_by_path_loop (newChildren : List (Option VNode))
    (old_by_path : List (HexPath × VNode)) (rest : List (HexPath × VNode))
    (h : ∀ pv ∈ rest, sizeOf pv.2 < sizeOf newChildren) : List Patch :=
  match rest with
  | [] => []
  | (path, new_node) :: tail =>
    have hn : sizeOf new_node < sizeOf newChildren := h (path, new_node) (by simp)
    (match alookup path old_by_path with
     | some old_node => reconcile_node old_node new_node
     | none => if ¬ new_node.is_null then [.create path new_node] else [])
      ++ reconcile_by_path_loop newChildren old_by_path tail
          (fun pv hpv => h pv (List.mem_cons_of_mem _ hpv))
termination_by (sizeOf newChildren, 1, sizeOf rest)

/-- `reconcile_keyed_children`. -/
def reconcile_keyed_children (oldChildren newChildren : List (Option VNode))
    (old_keyed new_keyed : List (String × (Nat × VNode))) : List Patch :=
  reconcile_keyed_loop oldChildren newChildren old_keyed
    ++ keyed_removes old_keyed new_keyed
    ++ keyed_reorder newChildren
termination_by (sizeOf newChildren, 2, 0)

/-- Main loop of `reconcile_keyed_children`: `oldRest` is the suffix of
the old children from the running `old_idx` used for greedy unkeyed
pairing. -/
def reconcile_keyed_loop (oldRest newRest : List (Option VNode))
    (old_keyed : List (String × (Nat × VNode))) : List Patch :=
  match newRest with
  | [] => []
  | none :: tail => reconcile_keyed_loop oldRest tail old_keyed
  | some new_child :: tail =>
    match new_child.key with
    | some new_key =>
      (match alookup new_key old_keyed with
       | some iv => reconcile_node iv.2 new_child
       | none => [.create new_child.path new_child])
        ++ reconcile_keyed_loop oldRest tail old_keyed
    | none =>
      match oldRest.dropWhile Option.isNone with
      | some old_child :: oldTail =>
        if old_child.key.isNone then
          reconcile_node old_child new_child
            ++ reconcile_keyed_loop oldTail tail old_keyed
        else
          Patch.create new_child.path new_child
            :: reconcile_keyed_loop (oldRest.dropWhile Option.isNone) tail old_keyed
      | _ =>
        Patch.create new_child.path new_child
          :: reconcile_keyed_loop (oldRest.dropWhile Option.isNone) tail old_keyed
termination_by (sizeOf newRest, 1, 0)
end

/-- `reconcile` — validate both trees against the default config, then
diff them. -/
def reconcile (old new : VNode) : Except MinimactError (List Patch) := do
  let config := ValidationConfig.default
  old.validate config
  new.validate config
  .ok (reconcile_node old new)

/-- The fast-equality shortcut: diffing a tree against itself emits no
patches. -/
theorem reconcile_node_self (a : VNode) : reconcile_node a a = [] := by
  unfold reconcile_node
  simp [vnodeEq_refl]

/-- C2: for every tree `a` that passes validation against the default
`ValidationConfig`, `reconcile(a, a)` returns `Ok` with the empty patch
sequence. -/
theorem C2_reconcile_self_empty (a : VNode)
    (h : a.validate ValidationConfig.default = .ok ()) :
    reconcile a a = .ok [] := by
  simp [reconcile, h, reconcile_node_self]
  rfl

/-- C2 witness: a concrete valid tree on which `reconcile(a, a)` returns
the empty patch list. -/
theorem C2_reconcile_self_empty_witness :
    (VNode.element "div" [("class", "a")]
        [some (VNode.text "Hello" ⟨"10000000"⟩)] none ⟨""⟩).validate
        ValidationConfig.default = .ok () ∧
    reconcile
        (VNode.element "div" [("class", "a")]
          [some (VNode.text "Hello" ⟨"10000000"⟩)] none ⟨""⟩)
        (VNode.element "div" [("class", "a")]
          [some (VNode.text "Hello" ⟨"10000000"⟩)] none ⟨""⟩) = .ok [] :=
  ⟨rfl, C2_reconcile_self_empty _ rfl⟩

/-- C5 (amended): during keyed child reconciliation, when the new
children contain a keyed non-null child AND the first child slot holds a
non-null node whose path contains a dot, the patch list ends with a
single appended `ReorderChildren` whose path is the first child's path
with its last segment stripped and whose order is the keys of the
non-null keyed new children in new-tree order.  (The source only emits
the reorder patch under these two extra conditions; root-level children
have single-segment paths and get no reorder patch.) -/
theorem C5_keyed_reorder_suffix (oldChildren newChildren : List (Option VNode))
    (old_keyed new_keyed : List (String × (Nat × VNode)))
    (first_child : VNode) (last_dot : Nat)
    (h1 : newChildren.filterMap (fun opt => opt.bind VNode.key) ≠ [])
    (h2 : newChildren.head? = some (some first_child))
    (h3 : rfindDot first_child.path.str = some last_dot) :
    ∃ pre,
      reconcile_keyed_children oldChildren newChildren old_keyed new_keyed =
        pre ++ [Patch.reorderChildren ⟨takeStr first_child.path.str last_dot⟩
          (newChildren.filterMap (fun opt => opt.bind VNode.key))] := by
  refine ⟨reconcile_keyed_loop oldChildren newChildren old_keyed
    ++ keyed_removes old_keyed new_keyed, ?_⟩
  rw [reconcile_keyed_children]
  rw [keyed_reorder]
  simp only [List.isEmpty_iff, h1, if_neg, h2, h3]
  simp [h1]

/-- C5 witness: concrete keyed children one level below the root, where
the reorder patch is emitted with the stripped parent path. -/
theorem C5_keyed_reorder_suffix_witness :
    ([some (VNode.element "li" [] [] (some "b") ⟨"10000000.10000000"⟩),
      some (VNode.element "li" [] [] (some "a") ⟨"10000000.20000000"⟩)]
        : List (Option VNode)).filterMap (fun opt => opt.bind VNode.key) ≠ [] ∧
    ∃ pre,
      reconcile_keyed_children
        [some (VNode.element "li" [] [] (some "a") ⟨"10000000.10000000"⟩),
         some (VNode.element "li" [] [] (some "b") ⟨"10000000.20000000"⟩)]
        [some (VNode.element "li" [] [] (some "b") ⟨"10000000.10000000"⟩),
         some (VNode.element "li" [] [] (some "a") ⟨"10000000.20000000"⟩)]
        [("a", (0, VNode.element "li" [] [] (some "a") ⟨"10000000.10000000"⟩)),
         ("b", (1, VNode.element "li" [] [] (some "b") ⟨"10000000.20000000"⟩))]
        [("b", (0, VNode.element "li" [] [] (some "b") ⟨"10000000.10000000"⟩)),
         ("a", (1, VNode.element "li" [] [] (some "a") ⟨"10000000.20000000"⟩))] =
      pre ++ [Patch.reorderChildren ⟨"10000000"⟩ ["b", "a"]] :=
  ⟨by decide,
    C5_keyed_reorder_suffix _ _ _ _
      (VNode.element "li" [] [] (some "b") ⟨"10000000.10000000"⟩) 8
      (by decide) rfl (by decide)⟩

/-- C5 counterexample: both trees hold keyed non-null children of the
root, so the claim requires exactly one `ReorderChildren` patch for the
root parent, but the reconciler emits none — the children's
single-segment paths contain no dot, so the reorder emission is skipped
entirely. -/
theorem C5_counterexample :
    reconcile
      (VNode.element "ul" []
        [some (VNode.element "li" [] [] (some "a") ⟨"10000000"⟩),
         some (VNode.element "li" [] [] (some "b") ⟨"20000000"⟩)] none ⟨""⟩)
      (VNode.element "ul" []
        [some (VNode.element "li" [] [] (some "b") ⟨"10000000"⟩),
         some (VNode.element "li" [] [] (some "a") ⟨"20000000"⟩)] none ⟨""⟩) =
    .ok [Patch.replace ⟨"10000000"⟩ (VNode.element "li" [] [] (some "b") ⟨"10000000"⟩),
         Patch.replace ⟨"20000000"⟩ (VNode.element "li" [] [] (some "a") ⟨"20000000"⟩)] := by
  rw [reconcile]
  rw [show (VNode.element "ul" []
      [some (VNode.element "li" [] [] (some "a") ⟨"10000000"⟩),
       some (VNode.element "li" [] [] (some "b") ⟨"20000000"⟩)] none ⟨""⟩).validate
      ValidationConfig.default = .ok () from rfl]
  rw [show (VNode.element "ul" []
      [some (VNode.element "li" [] [] (some "b") ⟨"10000000"⟩),
       some (VNode.element "li" [] [] (some "a") ⟨"20000000"⟩)] none ⟨""⟩).validate
      ValidationConfig.default = .ok () from rfl]
  show Except.ok (reconcile_node _ _) = _
  simp [reconcile_node, reconcile_children, reconcile_children_by_path,
    reconcile_by_path_loop, reconcile_keyed_children, reconcile_keyed_loop,
    keyed_removes, keyed_reorder, by_path_removes, collectKeyed, collectByPath,
    insertReplace, alookup, vnodeEq, childrenEq, childEq, propsEq, VNode.path,
    VNode.key, VNode.is_null, rfindDot, takeStr]

/-! ## Patch application

The repository emits patches but contains no applier (patches are applied
by the client runtime).  The following semantics is modelled from the
spec: a path addresses a node positionally — each hex segment
`(index+1)*HEX_GAP` selects a child slot (§3 path identity); `UpdateText`
requires a `Text` target, `UpdateProps` an `Element` target, `Create`
inserts at the final index of an existing element parent (append
allowed), `Remove`/`Replace` require the target path to resolve, and
`ReorderChildren` permutes an element's keyed children into the given
key order (§4.2 applicability rules, mirroring the index resolution of
`get_node_at_path` in src/patch_validator.rs). -/

/-- Modelled from the spec: rewrite the node at an index path with `f`,
failing when the path does not resolve. -/
def modifyAt (tree : VNode) (is : List Nat) (f : VNode → Option VNode) :
    Option VNode :=
  match is with
  | [] => f tree
  | i :: rest =>
    match tree with
    | .element t p children k ph =>
      match children.get? i with
      | some (some child) =>
        (modifyAt child rest f).map fun c => .element t p (children.set i (some c)) k ph
      | _ => none
    | _ => none

/-- Modelled from the spec: rewrite the children list of the element at
an index path. -/
def modifyChildrenAt (tree : VNode) (is : List Nat)
    (f : List (Option VNode) → Option (List (Option VNode))) : Option VNode :=
  modifyAt tree is fun node =>
    match node with
    | .element t p children k ph => (f children).map (VNode.element t p · k ph)
    | _ => none

/-- Modelled from the spec: apply one patch to a tree. -/
def applyPatch (tree : VNode) (patch : Patch) : Option VNode :=
  match patch with
  | .replace path node => do
    let is ← path.to_index_path.toOption
    modifyAt tree is fun _ => some node
  | .updateText path content => do
    let is ← path.to_index_path.toOption
    modifyAt tree is fun node =>
      match node with
      | .text _ p => some (.text content p)
      | _ => none
  | .updateProps path props => do
    let is ← path.to_index_path.toOption
    modifyAt tree is fun node =>
      match node with
      | .element t _ children k p => some (.element t props children k p)
      | _ => none
  | .create path node => do
    let is ← path.to_index_path.toOption
    match is.getLast? with
    | some i =>
      modifyChildrenAt tree (is.dropLast) fun children =>
        if i ≤ children.length then some (children.insertIdx i (some node)) else none
    | none => none
  | .remove path => do
    let is ← path.to_index_path.toOption
    match is.getLast? with
    | some i =>
      modifyChildrenAt tree (is.dropLast) fun children =>
        if i < children.length then some (children.eraseIdx i) else none
    | none => none
  | .reorderChildren path order => do
    let is ← path.to_index_path.toOption
    modifyChildrenAt tree is fun children =>
      let reordered := order.filterMap fun k =>
        children.filterMap id |>.find? fun c => c.key == some k
      if reordered.length = children.length then
        some (reordered.map some)
      else none

/-- Modelled from the spec: apply a patch sequence left to right. -/
def applyPatches (tree : VNode) (patches : List Patch) : Option VNode :=
  patches.foldlM applyPatch tree

/-- C1: the two text trees below pass default validation, yet the patch
sequence `reconcile` emits cannot be applied to the old tree at all — it
targets path `20000000`, which resolves nowhere inside the old tree — so
applying the patches left-to-right does not produce the new tree.  This
contradicts spec §8 invariant 1 (the declared intent), exhibiting the
divergence of the code from the claim. -/
theorem C1_reconcile_apply_code_bug :
    reconcile (VNode.text "A" ⟨"10000000"⟩) (VNode.text "B" ⟨"20000000"⟩) =
      .ok [Patch.replace ⟨"20000000"⟩ (VNode.text "B" ⟨"20000000"⟩)] ∧
    applyPatches (VNode.text "A" ⟨"10000000"⟩)
      [Patch.replace ⟨"20000000"⟩ (VNode.text "B" ⟨"20000000"⟩)] = none := by
  constructor
  · rw [reconcile]
    rw [show (VNode.text "A" ⟨"10000000"⟩).validate ValidationConfig.default
        = .ok () from rfl]
    rw [show (VNode.text "B" ⟨"20000000"⟩).validate ValidationConfig.default
        = .ok () from rfl]
    show Except.ok (reconcile_node _ _) = _
    simp [reconcile_node, VNode.path]
  · rfl

/-! ## JSON values (serde_json::Value)

State-change values are arbitrary JSON trees.  `f64` numbers are
modelled by exact rationals (`Number::as_f64` always succeeds in the
standard serde_json configuration, so the parse-failure arm of the
classifier is unreachable). -/

inductive Json where
  | null
  | bool (b : Bool)
  | num (q : ℚ)
  | str (s : String)
  | arr (items : List Json)
  | obj (fields : List (String × Json))

/-! ## Predictor data model (src/predictor.rs) -/

structure StateChange where
  component_id : String
  state_key : String
  old_value : Json
  new_value : Json

inductive PatternType where
  | NumericIncrement
  | NumericDecrement
  | BooleanToggle
  | Literal
deriving DecidableEq, Repr

structure Prediction where
  state_change : StateChange
  predicted_patches : List Patch
  confidence : ℚ
  predicted_tree : Option VNode

/-- `PredictionPattern` — `Instant` timestamps become absolute `Nat`
clock values; `elapsed()` at clock `now` is `now - t`. -/
structure PredictionPattern where
  state_change_key : String
  pattern_type : PatternType
  patches : List Patch
  observation_count : Nat
  old_tree : Option VNode
  new_tree : Option VNode
  last_accessed : Nat
  created_at : Nat
  predictions_made : Nat
  predictions_correct : Nat
  predictions_incorrect : Nat

inductive EvictionPolicy where
  | LeastRecentlyUsed
  | LeastFrequentlyUsed
  | OldestFirst
deriving DecidableEq, Repr

/-- `PredictorConfig` — `min_confidence: f32` is modelled as an exact
rational. -/
structure PredictorConfig where
  min_confidence : ℚ
  max_patterns_per_key : Nat
  use_ml : Bool
  max_state_keys : Nat
  max_memory_bytes : Nat
  eviction_policy : EvictionPolicy

def PredictorConfig.default : PredictorConfig where
  min_confidence := 7 / 10
  max_patterns_per_key := 100
  use_ml := false
  max_state_keys := 1000
  max_memory_bytes := 100 * 1024 * 1024
  eviction_policy := .LeastFrequentlyUsed

structure Predictor where
  patterns : List (String × List PredictionPattern)
  config : PredictorConfig

def Predictor.new : Predictor := ⟨[], PredictorConfig.default⟩

/-- `Predictor::make_pattern_key` — `"{component_id}::{state_key}"`. -/
def make_pattern_key (state_change : StateChange) : String :=
  state_change.component_id ++ "::" ++ state_change.state_key

/-- `Predictor::detect_pattern_type`. -/
def detect_pattern_type (state_change : StateChange) : PatternType :=
  match state_change.old_value, state_change.new_value with
  | .bool o, .bool n => if o ≠ n then .BooleanToggle else .Literal
  | .num o, .num n =>
    if n > o then .NumericIncrement
    else if n < o then .NumericDecrement
    else .Literal
  | _, _ => .Literal

/-- C4 spec-side classifier, written from the claim: booleans that
differ give `BooleanToggle`; two numerics give `NumericIncrement`
(strictly greater), `NumericDecrement` (strictly smaller) or `Literal`
(equal); every other case gives `Literal`. -/
def pattern_type_of_claim (state_change : StateChange) : PatternType :=
  match state_change.old_value, state_change.new_value with
  | .bool o, .bool n => if o ≠ n then .BooleanToggle else .Literal
  | .num o, .num n =>
    if o < n then .NumericIncrement
    else if n < o then .NumericDecrement
    else .Literal
  | _, _ => .Literal

/-- C4: the pattern-type classifier agrees with the claim's case
analysis on every state change. -/
theorem C4_detect_pattern_type (state_change : StateChange) :
    detect_pattern_type state_change = pattern_type_of_claim state_change := by
  unfold detect_pattern_type pattern_type_of_claim
  rcases state_change with ⟨_, _, ov, nv⟩
  cases ov <;> cases nv <;> rfl

/-- Rust `std::mem::discriminant` on the modelled patch variants. -/
def Patch.discr : Patch → Nat
  | .create _ _ => 0
  | .remove _ => 1
  | .replace _ _ => 2
  | .updateText _ _ => 3
  | .updateProps _ _ => 4
  | .reorderChildren _ _ => 5

/-! Memory estimation (`estimate_size`, `estimate_memory_usage`).  The
`std::mem::size_of` constants below stand for the struct sizes on the
64-bit target; `String::capacity` is approximated by the byte length.
No claim in this development depends on the concrete values. -/

def SIZE_OF_VTEXT : Nat := 48
def SIZE_OF_VELEMENT : Nat := 128
def SIZE_OF_VNULL : Nat := 24
def SIZE_OF_PATCH : Nat := 136
def SIZE_OF_PATTERN : Nat := 232
def SIZE_OF_HASHMAP : Nat := 48
def SIZE_OF_VEC : Nat := 24

mutual
/-- `VNode::estimate_size` (src/validation.rs). -/
def estimate_size : VNode → Nat
  | .text content _ => SIZE_OF_VTEXT + strLen content
  | .element tag props children key _ =>
    SIZE_OF_VELEMENT + strLen tag
      + (match key with | some k => strLen k | none => 0)
      + (props.map fun kv => strLen kv.1 + strLen kv.2).sum
      + estimate_size_children children
  | .null _ => SIZE_OF_VNULL

def estimate_size_children : List (Option VNode) → Nat
  | [] => 0
  | none :: rest => estimate_size_children rest
  | some c :: rest => estimate_size c + estimate_size_children rest
end

/-- Per-pattern part of `Predictor::estimate_memory_usage`. -/
def pattern_size (pat : PredictionPattern) : Nat :=
  SIZE_OF_PATTERN + strLen pat.state_change_key
    + pat.patches.length * SIZE_OF_PATCH
    + (match pat.old_tree with | some t => estimate_size t | none => 0)
    + (match pat.new_tree with | some t => estimate_size t | none => 0)

/-- `Predictor::estimate_memory_usage`. -/
def estimate_memory_usage (patterns : List (String × List PredictionPattern)) : Nat :=
  SIZE_OF_HASHMAP +
    (patterns.map fun kv =>
      strLen kv.1 + SIZE_OF_VEC + (kv.2.map pattern_size).sum).sum

/-- Per-key eviction score (the `match self.config.eviction_policy`
bodies shared by `evict_state_keys` and `find_key_to_evict`). -/
def key_score (policy : EvictionPolicy) (now : Nat)
    (patterns : List PredictionPattern) : Nat :=
  match policy with
  | .LeastFrequentlyUsed => (patterns.map (·.observation_count)).sum
  | .LeastRecentlyUsed =>
    ((patterns.map fun p => now - p.last_accessed).max?).getD 0
  | .OldestFirst =>
    ((patterns.map fun p => now - p.created_at).max?).getD 0

/-- Remove a key from the pattern map. -/
def aremove {α : Type} (k : String) : List (String × α) → List (String × α)
  | [] => []
  | (k', v) :: rest => if k' = k then rest else (k', v) :: aremove k rest

/-- `Predictor::evict_state_keys` — drop to 90% of `max_state_keys`,
sorting scored keys ascending for LFU and descending for LRU /
OldestFirst (stable sort), then removing the front of the sorted list. -/
def evict_state_keys (p : Predictor) (now : Nat) : Predictor :=
  let target_count := p.config.max_state_keys * 9 / 10
  if p.patterns.length ≤ target_count then p
  else
    let key_scores := p.patterns.map fun kv =>
      (kv.1, key_score p.config.eviction_policy now kv.2)
    let sorted :=
      match p.config.eviction_policy with
      | .LeastFrequentlyUsed => key_scores.mergeSort fun a b => a.2 ≤ b.2
      | .LeastRecentlyUsed | .OldestFirst =>
        key_scores.mergeSort fun a b => b.2 ≤ a.2
    let to_remove := p.patterns.length - target_count
    { p with patterns :=
        (sorted.take to_remove).foldl (fun m kv => aremove kv.1 m) p.patterns }

/-- `Predictor::find_key_to_evict` — `min_by_key` over the pattern map
(first minimum wins), scoring each key by the active policy. -/
def find_key_to_evict (p : Predictor) (now : Nat) : Option String :=
  (p.patterns.foldl
    (fun best kv =>
      let score := key_score p.config.eviction_policy now kv.2
      match best with
      | none => some (kv.1, score)
      | some b => if score < b.2 then some (kv.1, score) else some b)
    none).map (·.1)

/-- Body of the `while` loop of `evict_to_memory_limit`; the fuel is the
key count, which bounds the number of single-key removals. -/
def evict_loop (config : PredictorConfig) (now target : Nat) :
    Nat → List (String × List PredictionPattern) →
      List (String × List PredictionPattern)
  | 0, patterns => patterns
  | fuel + 1, patterns =>
    if estimate_memory_usage patterns > target ∧ ¬ patterns.isEmpty then
      match find_key_to_evict ⟨patterns, config⟩ now with
      | some key => evict_loop config now target fuel (aremove key patterns)
      | none => patterns
    else patterns

/-- `Predictor::evict_to_memory_limit` — remove one key at a time until
estimated use drops to 90% of the budget or the store empties. -/
def evict_to_memory_limit (p : Predictor) (now : Nat) : Predictor :=
  let target_memory := p.config.max_memory_bytes * 9 / 10
  if estimate_memory_usage p.patterns ≤ target_memory then p
  else
    { p with patterns :=
        evict_loop p.config now target_memory p.patterns.length p.patterns }

/-- `Predictor::enforce_memory_limits` (always returns `Ok` in the
source; the model returns the updated predictor). -/
def enforce_memory_limits (p : Predictor) (now : Nat) : Predictor :=
  let p := if p.patterns.length > p.config.max_state_keys
    then evict_state_keys p now else p
  if estimate_memory_usage p.patterns > p.config.max_memory_bytes
    then evict_to_memory_limit p now else p

/-- `Predictor::learn` — `&mut self` is modelled by returning the
updated predictor next to the `Result`; on error the predictor is
returned unchanged, exactly as the early `return` leaves `self`. -/
def learn (p : Predictor) (state_change : StateChange)
    (old_tree new_tree : VNode) (now : Nat) :
    Except MinimactError Unit × Predictor :=
  match reconcile old_tree new_tree with
  | .error e => (.error e, p)
  | .ok patches =>
    let pattern_key := make_pattern_key state_change
    let p := enforce_memory_limits p now
    let pats := (alookup pattern_key p.patterns).getD []
    let pattern_type := detect_pattern_type state_change
    let existing_idx := pats.findIdx? fun q =>
      q.pattern_type == pattern_type ∧
      q.patches.length == patches.length ∧
      (q.patches.zip patches).all fun pp => pp.1.discr == pp.2.discr
    match existing_idx with
    | some idx =>
      let pats := pats.modify
        (fun q => { q with
          observation_count := q.observation_count + 1
          old_tree := some old_tree
          new_tree := some new_tree
          last_accessed := now }) idx
      (.ok (), { p with patterns := insertReplace pattern_key pats p.patterns })
    | none =>
      let pats := pats ++ [{
        state_change_key := pattern_key
        pattern_type := pattern_type
        patches := patches
        observation_count := 1
        old_tree := some old_tree
        new_tree := some new_tree
        last_accessed := now
        created_at := now
        predictions_made := 0
        predictions_correct := 0
        predictions_incorrect := 0 : PredictionPattern }]
      let pats :=
        if pats.length > p.config.max_patterns_per_key then
          (match p.config.eviction_policy with
            | .LeastFrequentlyUsed =>
              pats.mergeSort fun a b => b.observation_count ≤ a.observation_count
            | .LeastRecentlyUsed =>
              pats.mergeSort fun a b => b.last_accessed ≤ a.last_accessed
            | .OldestFirst =>
              pats.mergeSort fun a b => b.created_at ≤ a.created_at
          ).take p.config.max_patterns_per_key
        else pats
      (.ok (), { p with patterns := insertReplace pattern_key pats p.patterns })

/-- C6: when the internal `reconcile` call fails (a validation error on
either tree), `learn` returns that error and the pattern store is
untouched. -/
theorem C6_learn_error_no_mutation (p : Predictor) (state_change : StateChange)
    (old_tree new_tree : VNode) (now : Nat) (e : MinimactError)
    (h : reconcile old_tree new_tree = .error e) :
    learn p state_change old_tree new_tree now = (.error e, p) := by
  simp [learn, h]

set_option maxRecDepth 100000 in
/-- C6 witness: the old tree exceeds `max_children_per_node`, so the
internal `reconcile` fails with `TooManyChildren` and `learn` leaves the
fresh predictor untouched. -/
theorem C6_learn_error_no_mutation_witness :
    reconcile
      (VNode.element "div" [] (List.replicate 1001 (some (VNode.text "x" ⟨""⟩)))
        none ⟨""⟩)
      (VNode.text "y" ⟨""⟩) = .error (.TooManyChildren 1001 1000) ∧
    learn Predictor.new ⟨"counter", "count", .num 0, .num 1⟩
      (VNode.element "div" [] (List.replicate 1001 (some (VNode.text "x" ⟨""⟩)))
        none ⟨""⟩)
      (VNode.text "y" ⟨""⟩) 0 =
      (.error (.TooManyChildren 1001 1000), Predictor.new) :=
  ⟨rfl, C6_learn_error_no_mutation _ _ _ _ _ _ rfl⟩

/-- C8: under `LeastRecentlyUsed`, `find_key_to_evict` (used by
memory-level eviction) selects the key with the MINIMAL
greatest-elapsed-time score — the most recently used key — because it
applies `min_by_key` uniformly to all policies, while `evict_state_keys`
sorts the same scores descending.  Here key `"c::a"` has elapsed score
100 and key `"c::b"` score 5, and the key picked for eviction is
`"c::b"`. -/
theorem C8_find_key_to_evict_lru :
    find_key_to_evict
      ⟨[("c::a", [⟨"c::a", .Literal, [], 1, none, none, 0, 0, 0, 0, 0⟩]),
        ("c::b", [⟨"c::b", .Literal, [], 1, none, none, 95, 95, 0, 0, 0⟩])],
       { PredictorConfig.default with eviction_policy := .LeastRecentlyUsed }⟩
      100 = some "c::b" ∧
    key_score .LeastRecentlyUsed 100
      [⟨"c::a", .Literal, [], 1, none, none, 0, 0, 0, 0, 0⟩] = 100 ∧
    key_score .LeastRecentlyUsed 100
      [⟨"c::b", .Literal, [], 1, none, none, 95, 95, 0, 0, 0⟩] = 5 :=
  ⟨rfl, rfl, rfl⟩

/-- C9: `to_index_path` converts gap-aligned positive segments as
specified (`"10000000.20000000"` to `[0, 1]`), but a zero segment — a
multiple of the gap that is NOT positive, which the claim says must make
the conversion fail — slips past the alignment check into the u32
subtraction `seg / HEX_GAP - 1`, which underflows: release builds return
`Ok([4294967295])` (modelled here via the explicit `% 2^32` wrap) and
debug builds panic on the overflow check. -/
theorem C9_to_index_path_zero_segment :
    HexPath.to_index_path ⟨"10000000.20000000"⟩ = .ok [0, 1] ∧
    HexPath.to_index_path ⟨"00000000"⟩ = .ok [4294967295] :=
  ⟨rfl, rfl⟩

/-! ## verify_prediction (src/predictor.rs) -/

/-- Rust `Iterator::max_by_key`: the LAST maximal element wins. -/
def last_max_by {α : Type} (f : α → Nat) (l : List α) : Option α :=
  l.foldl
    (fun best x =>
      match best with
      | none => some x
      | some b => if f x ≥ f b then some x else some b)
    none

mutual
/-- Structural equality with ordered props: in the model this is
exactly agreement of the serde_json serialisations used by
`trees_match`. -/
def vnodeStructEq : VNode → VNode → Bool
  | .element t₁ p₁ c₁ k₁ h₁, .element t₂ p₂ c₂ k₂ h₂ =>
    t₁ == t₂ && p₁ == p₂ && childrenStructEq c₁ c₂ && k₁ == k₂ && h₁.str == h₂.str
  | .text s₁ h₁, .text s₂ h₂ => s₁ == s₂ && h₁.str == h₂.str
  | .null h₁, .null h₂ => h₁.str == h₂.str
  | _, _ => false

def childStructEq : Option VNode → Option VNode → Bool
  | none, none => true
  | some a, some b => vnodeStructEq a b
  | _, _ => false

def childrenStructEq : List (Option VNode) → List (Option VNode) → Bool
  | [], [] => true
  | a :: as', b :: bs => childStructEq a b && childrenStructEq as' bs
  | _, _ => false
end

/-- `Predictor::trees_match` — serialise both trees and compare the JSON
strings; with the deterministic map order of the model this is
structural equality. -/
def trees_match (tree1 tree2 : VNode) : Bool := vnodeStructEq tree1 tree2

/-- `Predictor::verify_prediction`. -/
def verify_prediction (p : Predictor) (state_change : StateChange)
    (predicted_tree actual_tree : VNode) :
    Except MinimactError Bool × Predictor :=
  let pattern_key := make_pattern_key state_change
  match alookup pattern_key p.patterns with
  | some pats =>
    match last_max_by (fun ip => ip.2.observation_count) pats.enum with
    | some ip =>
      let m := trees_match predicted_tree actual_tree
      let pats := pats.modify
        (fun q =>
          if m then { q with predictions_correct := q.predictions_correct + 1 }
          else { q with predictions_incorrect := q.predictions_incorrect + 1 })
        ip.1
      (.ok m, { p with patterns := insertReplace pattern_key pats p.patterns })
    | none => (.ok false, p)
  | none => (.ok false, p)

/-- C10: when the state change's `component_id::state_key` key has no
entry in the pattern store, `verify_prediction` returns `Ok(false)` for
any trees and leaves the predictor — in particular every
`predictions_correct` / `predictions_incorrect` counter — unchanged. -/
theorem C10_verify_prediction_unknown_key (p : Predictor)
    (state_change : StateChange) (predicted_tree actual_tree : VNode)
    (h : alookup (make_pattern_key state_change) p.patterns = none) :
    verify_prediction p state_change predicted_tree actual_tree = (.ok false, p) := by
  simp [verify_prediction, h]

/-- C10 witness: a fresh predictor has no entry for `"counter::count"`,
so verification reports `false` and changes nothing. -/
theorem C10_verify_prediction_unknown_key_witness :
    alookup (make_pattern_key ⟨"counter", "count", .num 0, .num 1⟩)
      Predictor.new.patterns = none ∧
    verify_prediction Predictor.new ⟨"counter", "count", .num 0, .num 1⟩
      (VNode.text "a" ⟨""⟩) (VNode.text "b" ⟨""⟩) = (.ok false, Predictor.new) :=
  ⟨rfl, C10_verify_prediction_unknown_key _ _ _ _ rfl⟩

/-! ## Built-in prediction heuristics (src/predictor.rs) -/

/-- Lower-case hex digit. -/
def hexDigitChar (n : Nat) : Char :=
  if n < 10 then Char.ofNat ('0'.toNat + n) else Char.ofNat ('a'.toNat + (n - 10))

/-- Rust `format!("{:08x}", seg)` for u32 values. -/
def hex8 (n : Nat) : String :=
  String.mk ((List.range 8).reverse.map fun i => hexDigitChar (n / 16 ^ i % 16))

/-- `HexPath::from_segments`. -/
def HexPath.from_segments (segments : List Nat) : HexPath :=
  if segments.isEmpty then HexPath.root
  else ⟨String.intercalate "." (segments.map hex8)⟩

/-- `index_path_to_hex` (src/path.rs) — `(i+1)*HEX_GAP` per index, in
u32 arithmetic. -/
def index_path_to_hex (indices : List Nat) : HexPath :=
  HexPath.from_segments (indices.map fun i => (i % U32_MOD + 1) * HEX_GAP % U32_MOD)

/-- serde_json number display; integer values render exactly (the only
case the heuristics reach: state values are i64/u64 counters).
Non-integral floats would use shortest-round-trip printing, which is not
modelled. -/
def numToString (q : ℚ) : String :=
  if q.den = 1 then toString q.num else toString q.num ++ "/" ++ toString q.den

/-- `str::starts_with` on character lists. -/
def startsWithL : List Char → List Char → Bool
  | _, [] => true
  | [], _ :: _ => false
  | c :: cs, d :: ds => c == d && startsWithL cs ds

/-- `str::contains` on character lists. -/
def containsSubstr : List Char → List Char → Bool
  | hay, needle =>
    startsWithL hay needle ||
      match hay with
      | [] => false
      | _ :: rest => containsSubstr rest needle

/-- `str::replace`: non-overlapping left-to-right replacement.  The fuel
is the haystack length; the pattern is never empty where the predictor
calls this (it is the decimal rendering of a number). -/
def replaceAllAux (needle repl : List Char) : Nat → List Char → List Char
  | 0, hay => hay
  | _ + 1, [] => []
  | fuel + 1, c :: rest =>
    if startsWithL (c :: rest) needle ∧ needle ≠ [] then
      repl ++ replaceAllAux needle repl fuel (List.drop (needle.length - 1) rest)
    else c :: replaceAllAux needle repl fuel rest

def str_replace (s old new : String) : String :=
  String.mk (replaceAllAux old.data new.data s.data.length s.data)

def str_contains (s sub : String) : Bool := containsSubstr s.data sub.data

mutual
/-- `Predictor::find_text_patches_recursive` — the source accumulates an
index path and emits `UpdateText` patches; the embedding renders the
index path through the crate's `index_path_to_hex`.  `Null` nodes hold
no text (modelled from the spec; the stale match in the source has no
`Null` arm). -/
def find_text_patches (node : VNode) (old_text new_text : String)
    (path : List Nat) : List Patch :=
  match node with
  | .text content _ =>
    if str_contains content old_text then
      [Patch.updateText (index_path_to_hex path) (str_replace content old_text new_text)]
    else []
  | .element _ _ children _ _ =>
    find_text_patches_children children old_text new_text path 0
  | .null _ => []

def find_text_patches_children (children : List (Option VNode))
    (old_text new_text : String) (path : List Nat) (i : Nat) : List Patch :=
  match children with
  | [] => []
  | c :: rest =>
    (match c with
     | some n => find_text_patches n old_text new_text (path ++ [i])
     | none => []) ++
      find_text_patches_children rest old_text new_text path (i + 1)
end

/-- `Predictor::find_and_replace_number_text`. -/
def find_and_replace_number_text (tree : VNode) (state_change : StateChange)
    (new_text : String) : Option (List Patch) :=
  match state_change.old_value with
  | .num old_val =>
    let old_text := numToString old_val
    let patches := find_text_patches tree old_text new_text []
    if patches.isEmpty then none else some patches
  | _ => none

/-- `Predictor::predict_builtin_pattern`. -/
def predict_builtin_pattern (state_change : StateChange) (current_tree : VNode)
    (pattern_type : PatternType) : Option Prediction :=
  match pattern_type with
  | .NumericIncrement | .NumericDecrement =>
    match state_change.new_value with
    | .num new_val =>
      match find_and_replace_number_text current_tree state_change (numToString new_val) with
      | some patches =>
        some { state_change := state_change, predicted_patches := patches,
               confidence := 85 / 100, predicted_tree := none }
      | none => none
    | _ => none
  | .BooleanToggle => none
  | .Literal => none

/-- `Predictor::adapt_patches` — returns the stored patches verbatim. -/
def adapt_patches (patches : List Patch) (_current_tree : VNode) : List Patch :=
  patches

/-- `Predictor::predict` — `&mut self` modelled by also returning the
updated predictor (the chosen pattern's `predictions_made` counter). -/
def predict (p : Predictor) (state_change : StateChange) (current_tree : VNode) :
    Option Prediction × Predictor :=
  let pattern_key := make_pattern_key state_change
  let requested_pattern_type := detect_pattern_type state_change
  match alookup pattern_key p.patterns with
  | some pats =>
    let matching := pats.enum.filter fun ip =>
      ip.2.pattern_type == requested_pattern_type
    if matching.isEmpty then
      (predict_builtin_pattern state_change current_tree requested_pattern_type, p)
    else
      match last_max_by (fun ip => ip.2.observation_count) matching with
      | some best =>
        let total : Nat := (matching.map (·.2.observation_count)).sum
        let confidence : ℚ := (best.2.observation_count : ℚ) / (total : ℚ)
        if confidence ≥ p.config.min_confidence then
          let pats' := pats.modify
            (fun q => { q with predictions_made := q.predictions_made + 1 }) best.1
          (some { state_change := state_change,
                  predicted_patches := adapt_patches best.2.patches current_tree,
                  confidence := confidence,
                  predicted_tree := best.2.new_tree },
           { p with patterns := insertReplace pattern_key pats' p.patterns })
        else
          (predict_builtin_pattern state_change current_tree requested_pattern_type, p)
      | none => (none, p)
  | none =>
    (predict_builtin_pattern state_change current_tree requested_pattern_type, p)

theorem enumFrom_filter_map_snd {α : Type} (pred : α → Bool) (n : Nat) (l : List α) :
    ((l.enumFrom n).filter fun ip => pred ip.2).map (·.2) = l.filter pred := by
  induction l generalizing n with
  | nil => simp
  | cons a rest ih =>
    simp only [List.enumFrom, List.filter_cons]
    by_cases h : pred a <;> simp [h, ih]

theorem enum_filter_map_snd {α : Type} (pred : α → Bool) (l : List α) :
    (l.enum.filter fun ip => pred ip.2).map (·.2) = l.filter pred :=
  enumFrom_filter_map_snd pred 0 l

theorem last_max_by_map {α β : Type} (f : β → Nat) (g : α → β) (l : List α) :
    last_max_by f (l.map g) = (last_max_by (fun x => f (g x)) l).map g := by
  have key : ∀ acc : Option α,
      (l.map g).foldl
        (fun best x => match best with
          | none => some x
          | some b => if f x ≥ f b then some x else some b) (acc.map g)
      = (l.foldl
          (fun best x => match best with
            | none => some x
            | some b => if f (g x) ≥ f (g b) then some x else some b) acc).map g := by
    induction l with
    | nil => intro acc; rfl
    | cons a rest ih =>
      intro acc
      simp only [List.map_cons, List.foldl_cons]
      cases acc with
      | none => exact ih (some a)
      | some b =>
        by_cases h : f (g a) ≥ f (g b)
        · simpa [h] using ih (some a)
        · simpa [h] using ih (some b)
  simpa [last_max_by] using key none

/-- C3: when the store holds patterns for the change's key whose type
matches the detected pattern type, `predict` picks the matching pattern
with the highest observation count (`best`), computes the confidence as
its count over the summed counts of the matching patterns, and returns a
`Prediction` carrying exactly that pattern's patches and stored new tree
iff the confidence reaches `min_confidence`; below the threshold it
falls through to the built-in heuristics.  (`max_by_key` resolves count
ties towards the later pattern, reflected by `last_max_by`; a positive
count total keeps the model off the `0/0` float corner.) -/
theorem C3_predict_confidence_gate
    (p : Predictor) (state_change : StateChange) (current_tree : VNode)
    (pats : List PredictionPattern) (best : PredictionPattern)
    (hp : alookup (make_pattern_key state_change) p.patterns = some pats)
    (hbest : last_max_by (fun q => q.observation_count)
        (pats.filter fun q => q.pattern_type == detect_pattern_type state_change)
        = some best)
    (_htot : 0 < ((pats.filter fun q =>
        q.pattern_type == detect_pattern_type state_change).map
          (fun q => q.observation_count)).sum) :
    ((best.observation_count : ℚ) /
        (((((pats.filter fun q =>
            q.pattern_type == detect_pattern_type state_change).map
              (fun q => q.observation_count)).sum : Nat) : ℚ)) ≥ p.config.min_confidence →
      (predict p state_change current_tree).1 = some {
        state_change := state_change,
        predicted_patches := best.patches,
        confidence := (best.observation_count : ℚ) /
          (((((pats.filter fun q =>
              q.pattern_type == detect_pattern_type state_change).map
                (fun q => q.observation_count)).sum : Nat) : ℚ)),
        predicted_tree := best.new_tree }) ∧
    ((best.observation_count : ℚ) /
        (((((pats.filter fun q =>
            q.pattern_type == detect_pattern_type state_change).map
              (fun q => q.observation_count)).sum : Nat) : ℚ)) < p.config.min_confidence →
      (predict p state_change current_tree).1 =
        predict_builtin_pattern state_change current_tree
          (detect_pattern_type state_change)) := by
  have hmap : ((pats.enum.filter fun ip =>
      ip.2.pattern_type == detect_pattern_type state_change).map (·.2))
      = pats.filter fun q => q.pattern_type == detect_pattern_type state_change :=
    enum_filter_map_snd
      (fun q => q.pattern_type == detect_pattern_type state_change) pats
  have hlift := last_max_by_map (fun q : PredictionPattern => q.observation_count)
    (fun ip : Nat × PredictionPattern => ip.2)
    (pats.enum.filter fun ip => ip.2.pattern_type == detect_pattern_type state_change)
  rw [hmap, hbest] at hlift
  obtain ⟨bp, hbp, hbp2⟩ := Option.map_eq_some'.mp hlift.symm
  have hne : (pats.enum.filter fun ip =>
      ip.2.pattern_type == detect_pattern_type state_change).isEmpty = false := by
    rcases hx : pats.enum.filter fun ip =>
        ip.2.pattern_type == detect_pattern_type state_change with _ | _
    · rw [hx] at hbp
      simp [last_max_by] at hbp
    · simp [hx]
  have hsum : ((pats.enum.filter fun ip =>
      ip.2.pattern_type == detect_pattern_type state_change).map
        (fun ip => ip.2.observation_count)).sum
      = ((pats.filter fun q =>
          q.pattern_type == detect_pattern_type state_change).map
            (fun q => q.observation_count)).sum := by
    rw [← hmap, List.map_map]
    rfl
  constructor
  · intro hconf
    simp only [predict, hp, hne, Bool.false_eq_true, if_false, hbp, hsum, hbp2,
      adapt_patches]
    rw [if_pos hconf]
  · intro hconf
    simp only [predict, hp, hne, Bool.false_eq_true, if_false, hbp, hsum, hbp2,
      adapt_patches]
    rw [if_neg (not_le.mpr hconf)]

/-- C3 witness: one stored `NumericIncrement` pattern with observation
count 3 for key `"counter::count"`; the confidence 3/3 clears the
default threshold 0.7 and `predict` returns that pattern's patches and
stored new tree. -/
theorem C3_predict_confidence_gate_witness :
    (0 < ((([⟨"counter::count", .NumericIncrement,
        [Patch.updateText ⟨"10000000"⟩ "1"], 3, none,
        some (VNode.text "1" ⟨"10000000"⟩), 0, 0, 0, 0, 0⟩]
          : List PredictionPattern).filter fun q =>
            q.pattern_type == detect_pattern_type
              ⟨"counter", "count", .num 0, .num 1⟩).map
              (fun q => q.observation_count)).sum) ∧
    ((3 : ℚ) / ((3 : Nat) : ℚ) ≥ PredictorConfig.default.min_confidence) ∧
    (predict
        ⟨[("counter::count",
           [⟨"counter::count", .NumericIncrement,
             [Patch.updateText ⟨"10000000"⟩ "1"], 3, none,
             some (VNode.text "1" ⟨"10000000"⟩), 0, 0, 0, 0, 0⟩])],
          PredictorConfig.default⟩
        ⟨"counter", "count", .num 0, .num 1⟩
        (VNode.text "0" ⟨"10000000"⟩)).1 =
      some { state_change := ⟨"counter", "count", .num 0, .num 1⟩,
             predicted_patches := [Patch.updateText ⟨"10000000"⟩ "1"],
             confidence := (3 : ℚ) / ((3 : Nat) : ℚ),
             predicted_tree := some (VNode.text "1" ⟨"10000000"⟩) } := by
  have hdet : detect_pattern_type ⟨"counter", "count", .num 0, .num 1⟩
      = .NumericIncrement := by
    norm_num [detect_pattern_type]
  have htot : 0 < ((([⟨"counter::count", .NumericIncrement,
      [Patch.updateText ⟨"10000000"⟩ "1"], 3, none,
      some (VNode.text "1" ⟨"10000000"⟩), 0, 0, 0, 0, 0⟩]
        : List PredictionPattern).filter fun q =>
          q.pattern_type == detect_pattern_type
            ⟨"counter", "count", .num 0, .num 1⟩).map
            (fun q => q.observation_count)).sum := by
    simp [hdet]
  have hconf : (3 : ℚ) / ((3 : Nat) : ℚ)
      ≥ PredictorConfig.default.min_confidence := by
    norm_num [PredictorConfig.default]
  have hbest : last_max_by (fun q => q.observation_count)
      (([⟨"counter::count", .NumericIncrement,
        [Patch.updateText ⟨"10000000"⟩ "1"], 3, none,
        some (VNode.text "1" ⟨"10000000"⟩), 0, 0, 0, 0, 0⟩]
          : List PredictionPattern).filter fun q =>
            q.pattern_type == detect_pattern_type
              ⟨"counter", "count", .num 0, .num 1⟩)
      = some ⟨"counter::count", .NumericIncrement,
          [Patch.updateText ⟨"10000000"⟩ "1"], 3, none,
          some (VNode.text "1" ⟨"10000000"⟩), 0, 0, 0, 0, 0⟩ := by
    simp [hdet, last_max_by]
  refine ⟨htot, hconf, ?_⟩
  have happ := (C3_predict_confidence_gate
    ⟨[("counter::count",
       [⟨"counter::count", .NumericIncrement,
         [Patch.updateText ⟨"10000000"⟩ "1"], 3, none,
         some (VNode.text "1" ⟨"10000000"⟩), 0, 0, 0, 0, 0⟩])],
      PredictorConfig.default⟩
    ⟨"counter", "count", .num 0, .num 1⟩
    (VNode.text "0" ⟨"10000000"⟩)
    [⟨"counter::count", .NumericIncrement,
      [Patch.updateText ⟨"10000000"⟩ "1"], 3, none,
      some (VNode.text "1" ⟨"10000000"⟩), 0, 0, 0, 0, 0⟩]
    ⟨"counter::count", .NumericIncrement,
      [Patch.updateText ⟨"10000000"⟩ "1"], 3, none,
      some (VNode.text "1" ⟨"10000000"⟩), 0, 0, 0, 0, 0⟩
    rfl hbest htot).1
  have hgoal := happ (by simpa [hdet] using hconf)
  simpa [hdet] using hgoal

/-! ## Persistence (src/predictor.rs `save_to_json` / `load_from_json`)

`save_to_json` serialises the predictor with serde; the embedding works
at the JSON-value level (the print/parse step of `serde_json::to_string`
and `from_str` is the identity on the value).  Serde derive is mirrored
field by field: internally-tagged enums carry a `"type"` string, unit
enum variants become their name strings, `Option` becomes `null` or the
value, maps become objects, and the two `#[serde(skip)]` `Instant`
fields are not serialised — deserialisation defaults them to the current
clock. -/

def encodeProps (props : List (String × String)) : Json :=
  .obj (props.map fun kv => (kv.1, Json.str kv.2))

mutual
def encodeVNode : VNode → Json
  | .element tag props children key path =>
    .obj [("type", .str "Element"), ("tag", .str tag), ("props", encodeProps props),
          ("children", .arr (encodeChildren children)),
          ("key", match key with | some k => .str k | none => .null),
          ("path", .str path.str)]
  | .text content path =>
    .obj [("type", .str "Text"), ("content", .str content), ("path", .str path.str)]
  | .null path => .obj [("type", .str "Null"), ("path", .str path.str)]

def encodeChild : Option VNode → Json
  | none => .null
  | some v => encodeVNode v

def encodeChildren : List (Option VNode) → List Json
  | [] => []
  | c :: rest => encodeChild c :: encodeChildren rest
end

def encodePatch : Patch → Json
  | .create path node =>
    .obj [("type", .str "Create"), ("path", .str path.str), ("node", encodeVNode node)]
  | .remove path => .obj [("type", .str "Remove"), ("path", .str path.str)]
  | .replace path node =>
    .obj [("type", .str "Replace"), ("path", .str path.str), ("node", encodeVNode node)]
  | .updateText path content =>
    .obj [("type", .str "UpdateText"), ("path", .str path.str), ("content", .str content)]
  | .updateProps path props =>
    .obj [("type", .str "UpdateProps"), ("path", .str path.str), ("props", encodeProps props)]
  | .reorderChildren path order =>
    .obj [("type", .str "ReorderChildren"), ("path", .str path.str),
          ("order", .arr (order.map Json.str))]

def encodePatternType : PatternType → Json
  | .NumericIncrement => .str "NumericIncrement"
  | .NumericDecrement => .str "NumericDecrement"
  | .BooleanToggle => .str "BooleanToggle"
  | .Literal => .str "Literal"

def encodeEvictionPolicy : EvictionPolicy → Json
  | .LeastRecentlyUsed => .str "LeastRecentlyUsed"
  | .LeastFrequentlyUsed => .str "LeastFrequentlyUsed"
  | .OldestFirst => .str "OldestFirst"

def encodeOptTree : Option VNode → Json
  | none => .null
  | some v => encodeVNode v

def encodePattern (q : PredictionPattern) : Json :=
  .obj [("state_change_key", .str q.state_change_key),
        ("pattern_type", encodePatternType q.pattern_type),
        ("patches", .arr (q.patches.map encodePatch)),
        ("observation_count", .num q.observation_count),
        ("old_tree", encodeOptTree q.old_tree),
        ("new_tree", encodeOptTree q.new_tree),
        ("predictions_made", .num q.predictions_made),
        ("predictions_correct", .num q.predictions_correct),
        ("predictions_incorrect", .num q.predictions_incorrect)]

def encodeConfig (c : PredictorConfig) : Json :=
  .obj [("min_confidence", .num c.min_confidence),
        ("max_patterns_per_key", .num c.max_patterns_per_key),
        ("use_ml", .bool c.use_ml),
        ("max_state_keys", .num c.max_state_keys),
        ("max_memory_bytes", .num c.max_memory_bytes),
        ("eviction_policy", encodeEvictionPolicy c.eviction_policy)]

def encodePredictor (p : Predictor) : Json :=
  .obj [("patterns",
          .obj (p.patterns.map fun kv => (kv.1, Json.arr (kv.2.map encodePattern)))),
        ("config", encodeConfig p.config)]

def decodeStr : Option Json → Option String
  | some (.str s) => some s
  | _ => none

def decodeNat : Option Json → Option Nat
  | some (.num q) => if q.den = 1 ∧ 0 ≤ q.num then some q.num.toNat else none
  | _ => none

def decodeRat : Option Json → Option ℚ
  | some (.num q) => some q
  | _ => none

def decodeBool : Option Json → Option Bool
  | some (.bool b) => some b
  | _ => none

def decodeKeyOpt : Option Json → Option (Option String)
  | some .null => some none
  | some (.str s) => some (some s)
  | _ => none

def decodePropsFields : List (String × Json) → Option (List (String × String))
  | [] => some []
  | (k, .str v) :: rest => (decodePropsFields rest).map ((k, v) :: ·)
  | _ => none

def decodeProps : Option Json → Option (List (String × String))
  | some (.obj pfs) => decodePropsFields pfs
  | _ => none

mutual
def decodeVNode : Json → Option VNode
  | .obj fields =>
    match alookup "type" fields with
    | some (.str "Element") =>
      match hc : alookup "children" fields with
      | some (.arr items) =>
        have hlt : sizeOf items < sizeOf fields := by
          have := sizeOf_alookup "children" fields _ hc
          simp at this
          omega
        (match decodeStr (alookup "tag" fields), decodeProps (alookup "props" fields),
            decodeChildrenJ items, decodeKeyOpt (alookup "key" fields),
            decodeStr (alookup "path" fields) with
         | some tag, some props, some children, some key, some path =>
           some (.element tag props children key ⟨path⟩)
         | _, _, _, _, _ => none)
      | _ => none
    | some (.str "Text") =>
      (match decodeStr (alookup "content" fields), decodeStr (alookup "path" fields) with
       | some content, some path => some (.text content ⟨path⟩)
       | _, _ => none)
    | some (.str "Null") => (decodeStr (alookup "path" fields)).map fun p => .null ⟨p⟩
    | _ => none
  | _ => none
termination_by j => (sizeOf j, 0)

def decodeChildJ : Json → Option (Option VNode)
  | .null => some none
  | j => (decodeVNode j).map some
termination_by j => (sizeOf j, 1)

def decodeChildrenJ : List Json → Option (List (Option VNode))
  | [] => some []
  | j :: rest =>
    match decodeChildJ j, decodeChildrenJ rest with
    | some c, some cs => some (c :: cs)
    | _, _ => none
termination_by l => (sizeOf l, 0)
end

def decodePatternType : Option Json → Option PatternType
  | some (.str "NumericIncrement") => some .NumericIncrement
  | some (.str "NumericDecrement") => some .NumericDecrement
  | some (.str "BooleanToggle") => some .BooleanToggle
  | some (.str "Literal") => some .Literal
  | _ => none

def decodeEvictionPolicy : Option Json → Option EvictionPolicy
  | some (.str "LeastRecentlyUsed") => some .LeastRecentlyUsed
  | some (.str "LeastFrequentlyUsed") => some .LeastFrequentlyUsed
  | some (.str "OldestFirst") => some .OldestFirst
  | _ => none

def decodeOptTree : Option Json → Option (Option VNode)
  | some .null => some none
  | some j => (decodeVNode j).map some
  | none => none

def decodeStrList : List Json → Option (List String)
  | [] => some []
  | .str s :: rest => (decodeStrList rest).map (s :: ·)
  | _ => none

def decodePatch (j : Json) : Option Patch :=
  match j with
  | .obj fields =>
    match alookup "type" fields, decodeStr (alookup "path" fields) with
    | some (.str "Create"), some path =>
      match alookup "node" fields with
      | some nj => (decodeVNode nj).map (Patch.create ⟨path⟩)
      | none => none
    | some (.str "Remove"), some path => some (.remove ⟨path⟩)
    | some (.str "Replace"), some path =>
      match alookup "node" fields with
      | some nj => (decodeVNode nj).map (Patch.replace ⟨path⟩)
      | none => none
    | some (.str "UpdateText"), some path =>
      (decodeStr (alookup "content" fields)).map (Patch.updateText ⟨path⟩)
    | some (.str "UpdateProps"), some path =>
      (decodeProps (alookup "props" fields)).map (Patch.updateProps ⟨path⟩)
    | some (.str "ReorderChildren"), some path =>
      match alookup "order" fields with
      | some (.arr items) => (decodeStrList items).map (Patch.reorderChildren ⟨path⟩)
      | _ => none
    | _, _ => none
  | _ => none

def decodePatches : List Json → Option (List Patch)
  | [] => some []
  | j :: rest =>
    match decodePatch j, decodePatches rest with
    | some p, some ps => some (p :: ps)
    | _, _ => none

/-- Decode one stored pattern; the skipped `Instant` fields default to
the current clock (`#[serde(skip, default = Instant::now)]`). -/
def decodePattern (now : Nat) (j : Json) : Option PredictionPattern :=
  match j with
  | .obj fields =>
    match decodeStr (alookup "state_change_key" fields),
        decodePatternType (alookup "pattern_type" fields),
        alookup "patches" fields with
    | some key, some ptype, some (.arr pitems) =>
      match decodePatches pitems, decodeNat (alookup "observation_count" fields),
          decodeOptTree (alookup "old_tree" fields),
          decodeOptTree (alookup "new_tree" fields),
          decodeNat (alookup "predictions_made" fields),
          decodeNat (alookup "predictions_correct" fields),
          decodeNat (alookup "predictions_incorrect" fields) with
      | some patches, some obs, some oldT, some newT, some made, some corr, some incorr =>
        some ⟨key, ptype, patches, obs, oldT, newT, now, now, made, corr, incorr⟩
      | _, _, _, _, _, _, _ => none
    | _, _, _ => none
  | _ => none

def decodePatternList (now : Nat) : List Json → Option (List PredictionPattern)
  | [] => some []
  | j :: rest =>
    match decodePattern now j, decodePatternList now rest with
    | some q, some qs => some (q :: qs)
    | _, _ => none

def decodeConfig : Option Json → Option PredictorConfig
  | some (.obj fields) =>
    match decodeRat (alookup "min_confidence" fields),
        decodeNat (alookup "max_patterns_per_key" fields),
        decodeBool (alookup "use_ml" fields),
        decodeNat (alookup "max_state_keys" fields),
        decodeNat (alookup "max_memory_bytes" fields),
        decodeEvictionPolicy (alookup "eviction_policy" fields) with
    | some conf, some mppk, some ml, some msk, some mmb, some pol =>
      some ⟨conf, mppk, ml, msk, mmb, pol⟩
    | _, _, _, _, _, _ => none
  | _ => none

def decodePatternsMap (now : Nat) :
    List (String × Json) → Option (List (String × List PredictionPattern))
  | [] => some []
  | (k, .arr items) :: rest =>
    match decodePatternList now items, decodePatternsMap now rest with
    | some qs, some m => some ((k, qs) :: m)
    | _, _ => none
  | _ => none

def decodePredictor (now : Nat) (j : Json) : Option Predictor :=
  match j with
  | .obj fields =>
    match alookup "patterns" fields with
    | some (.obj pfs) =>
      match decodePatternsMap now pfs, decodeConfig (alookup "config" fields) with
      | some patterns, some config => some ⟨patterns, config⟩
      | _, _ => none
    | _ => none
  | _ => none

/-- `Predictor::save_to_json` — serialisation never fails on the modelled
data. -/
def save_to_json (p : Predictor) : Except MinimactError Json :=
  .ok (encodePredictor p)

/-- `Predictor::load_from_json` — parse, then reset every pattern's
`Instant` fields to the current clock. -/
def load_from_json (json : Json) (now : Nat) : Except MinimactError Predictor :=
  match decodePredictor now json with
  | some predictor =>
    .ok { predictor with patterns := predictor.patterns.map fun kv =>
            (kv.1, kv.2.map fun q =>
              { q with last_accessed := now, created_at := now }) }
  | none => .error (.Serialization "Failed to deserialize predictor")

/-- The timestamp resetting that `load_from_json` performs: everything
but `last_accessed` / `created_at` is preserved. -/
def reset_timestamps (p : Predictor) (now : Nat) : Predictor :=
  { p with patterns := p.patterns.map fun kv =>
      (kv.1, kv.2.map fun q => { q with last_accessed := now, created_at := now }) }

theorem decodeNat_encode (n : Nat) : decodeNat (some (.num (n : ℚ))) = some n := by
  simp [decodeNat]

theorem decodeProps_encode (props : List (String × String)) :
    decodeProps (some (encodeProps props)) = some props := by
  suffices h : decodePropsFields (props.map fun kv => (kv.1, Json.str kv.2)) = some props by
    simpa [decodeProps, encodeProps] using h
  induction props with
  | nil => rfl
  | cons kv rest ih => simp [decodePropsFields, ih]

mutual
theorem decodeVNode_encode (v : VNode) : decodeVNode (encodeVNode v) = some v := by
  cases v with
  | element tag props children key path =>
    simp only [encodeVNode]
    rw [decodeVNode]
    cases key <;>
      simp [alookup, decodeStr, decodeKeyOpt, decodeProps_encode,
        decodeChildrenJ_encode children]
  | text content path =>
    simp only [encodeVNode]
    rw [decodeVNode]
    simp [alookup, decodeStr]
  | null path =>
    simp only [encodeVNode]
    rw [decodeVNode]
    simp [alookup, decodeStr]

theorem decodeChildJ_encode (c : Option VNode) :
    decodeChildJ (encodeChild c) = some c := by
  cases c with
  | none =>
    simp only [encodeChild]
    rw [decodeChildJ]
  | some v =>
    simp only [encodeChild]
    rw [decodeChildJ]
    · simp [decodeVNode_encode v]
    · cases v <;> simp [encodeVNode]

theorem decodeChildrenJ_encode (l : List (Option VNode)) :
    decodeChildrenJ (encodeChildren l) = some l := by
  cases l with
  | nil =>
    simp only [encodeChildren]
    rw [decodeChildrenJ]
  | cons c rest =>
    simp only [encodeChildren]
    rw [decodeChildrenJ]
    simp [decodeChildJ_encode c, decodeChildrenJ_encode rest]
end

theorem decodeStrList_encode (l : List String) :
    decodeStrList (l.map Json.str) = some l := by
  induction l with
  | nil => rfl
  | cons s rest ih => simp [decodeStrList, ih]

theorem decodePatch_encode (p : Patch) : decodePatch (encodePatch p) = some p := by
  cases p <;>
    simp [encodePatch, decodePatch, alookup, decodeStr, decodeVNode_encode,
      decodeProps_encode, decodeStrList_encode]

theorem decodePatches_encode (l : List Patch) :
    decodePatches (l.map encodePatch) = some l := by
  induction l with
  | nil => rfl
  | cons p rest ih => simp [decodePatches, decodePatch_encode p, ih]

theorem decodePatternType_encode (t : PatternType) :
    decodePatternType (some (encodePatternType t)) = some t := by
  cases t <;> rfl

theorem decodeEvictionPolicy_encode (e : EvictionPolicy) :
    decodeEvictionPolicy (some (encodeEvictionPolicy e)) = some e := by
  cases e <;> rfl

theorem decodeOptTree_encode (t : Option VNode) :
    decodeOptTree (some (encodeOptTree t)) = some t := by
  cases t with
  | none => rfl
  | some v =>
    rw [encodeOptTree]
    rw [decodeOptTree]
    · simp [decodeVNode_encode v]
    · cases v <;> simp [encodeVNode]

theorem decodePattern_encode (now : Nat) (q : PredictionPattern) :
    decodePattern now (encodePattern q) =
      some { q with last_accessed := now, created_at := now } := by
  simp [encodePattern, decodePattern, alookup, decodeStr, decodePatternType_encode,
    decodePatches_encode, decodeNat_encode, decodeOptTree_encode]

theorem decodePatternList_encode (now : Nat) (l : List PredictionPattern) :
    decodePatternList now (l.map encodePattern) =
      some (l.map fun q => { q with last_accessed := now, created_at := now }) := by
  induction l with
  | nil => rfl
  | cons q rest ih => simp [decodePatternList, decodePattern_encode now q, ih]

theorem decodeConfig_encode (c : PredictorConfig) :
    decodeConfig (some (encodeConfig c)) = some c := by
  simp [encodeConfig, decodeConfig, alookup, decodeRat, decodeBool,
    decodeNat_encode, decodeEvictionPolicy_encode]

theorem decodePatternsMap_encode (now : Nat)
    (m : List (String × List PredictionPattern)) :
    decodePatternsMap now (m.map fun kv => (kv.1, Json.arr (kv.2.map encodePattern)))
      = some (m.map fun kv =>
          (kv.1, kv.2.map fun q => { q with last_accessed := now, created_at := now })) := by
  induction m with
  | nil => rfl
  | cons kv rest ih =>
    simp [decodePatternsMap, decodePatternList_encode now kv.2, ih]

theorem decodePredictor_encode (now : Nat) (p : Predictor) :
    decodePredictor now (encodePredictor p) = some (reset_timestamps p now) := by
  simp [encodePredictor, decodePredictor, alookup, decodePatternsMap_encode,
    decodeConfig_encode, reset_timestamps]

/-- C7: loading a saved predictor succeeds and reproduces the pattern
store exactly — same keys, same patterns with the same types, patch
sequences, observation counts, stored trees and prediction counters —
with only the two `Instant` fields reset to the load time. -/
theorem C7_save_load_roundtrip (p : Predictor) (now : Nat) :
    (save_to_json p).bind (fun j => load_from_json j now)
      = .ok (reset_timestamps p now) := by
  have hdec := decodePredictor_encode now p
  simp [save_to_json, load_from_json, Except.bind, hdec, reset_timestamps]

end Minimact
